import Mathlib

/-!
A verification development for the costgpt cost-attribution SDK.

The numeric model uses exact rationals (ℚ) for prices and costs, following
the design document's stipulation that costs are rounded only at
presentation time, never internally; token counts are integers (ℤ), as in
the host language. Python dicts preserve insertion order, so the price
table and alias table are embedded as association lists in declaration
order, with lookup returning the first (unique) binding of a key.
-/

namespace Costgpt

/-- The static price table from `src/costgpt/pricing.py` (`PRICING`):
model name to (input price per 1M tokens, output price per 1M tokens),
in declaration order. -/
def PRICING : List (String × (ℚ × ℚ)) :=
  [ ("claude-opus-4-20250514", (15.00, 75.00)),
    ("claude-sonnet-4-20250514", (3.00, 15.00)),
    ("claude-3-5-sonnet-20241022", (3.00, 15.00)),
    ("claude-3-5-haiku-20241022", (0.80, 4.00)),
    ("claude-3-opus-20240229", (15.00, 75.00)),
    ("claude-3-sonnet-20240229", (3.00, 15.00)),
    ("claude-3-haiku-20240307", (0.25, 1.25)),
    ("gpt-4o", (2.50, 10.00)),
    ("gpt-4o-mini", (0.15, 0.60)),
    ("gpt-4-turbo", (10.00, 30.00)),
    ("gpt-4", (30.00, 60.00)),
    ("gpt-3.5-turbo", (0.50, 1.50)),
    ("o1", (15.00, 60.00)),
    ("o1-mini", (3.00, 12.00)),
    ("o1-preview", (15.00, 60.00)),
    ("gemini-1.5-pro", (1.25, 5.00)),
    ("gemini-1.5-flash", (0.075, 0.30)),
    ("gemini-2.0-flash", (0.10, 0.40)),
    ("mistral-large", (2.00, 6.00)),
    ("mistral-small", (0.20, 0.60)),
    ("codestral", (0.20, 0.60)) ]

/-- The alias table from `src/costgpt/pricing.py` (`ALIASES`). -/
def ALIASES : List (String × String) :=
  [ ("claude-3.5-sonnet", "claude-3-5-sonnet-20241022"),
    ("claude-3.5-haiku", "claude-3-5-haiku-20241022"),
    ("gpt-4o-2024-08-06", "gpt-4o"),
    ("gpt-4o-2024-05-13", "gpt-4o") ]

/-- Python `s.startswith(p)`, computed on the character sequences of the
two strings: `p` is a prefix of `s`. -/
def startswith (s p : String) : Bool :=
  p.data.isPrefixOf s.data

/-- The prefix-match predicate of the fuzzy lookup loop in `get_cost`
(`model_key.startswith(key) or key.startswith(model_key)`). -/
def prefixHit (model_key : String) (kv : String × (ℚ × ℚ)) : Bool :=
  startswith model_key kv.1 || startswith kv.1 model_key

/-- The expression `ALIASES.get(model, model)` from `get_cost`: the
alias-substituted model name. -/
def alias_key (model : String) : String :=
  (ALIASES.lookup model).getD model

/-- The value of the Python local `model_key` after the exact-match test
and the prefix-match loop in `get_cost`: the alias-substituted name if it
is a price-table key, else the first prefix-matching key in declaration
order, else the alias-substituted name unchanged (which the final
membership test will then reject). -/
def resolve_key (model : String) : String :=
  let model_key := alias_key model
  if (PRICING.lookup model_key).isSome then model_key
  else
    match PRICING.find? (prefixHit model_key) with
    | some kv => kv.1
    | none => model_key

/-- Function `get_cost` from `src/costgpt/pricing.py`: alias substitution, then
exact match, then first prefix match in declaration order (the stages
factored into `resolve_key`), then the final membership test deciding
between `(0.0, 0.0, 0.0)` for an unknown model and the priced result
`cost = tokens / 1_000_000 * price`. -/
def get_cost (model : String) (input_tokens output_tokens : ℤ) : ℚ × ℚ × ℚ :=
  match PRICING.lookup (resolve_key model) with
  | none => (0, 0, 0)
  | some (input_price, output_price) =>
    let input_cost := ((input_tokens : ℚ) / 1000000) * input_price
    let output_cost := ((output_tokens : ℚ) / 1000000) * output_price
    (input_cost, output_cost, input_cost + output_cost)

/-- The resolution step of `get_cost` in isolation: the price-table entry
(key and price pair) that `get_cost` prices a model name with, or `none`
when the model is unresolved. Extracted from the same source lines. -/
def code_resolve (model : String) : Option (String × (ℚ × ℚ)) :=
  (PRICING.lookup (resolve_key model)).map (fun p => (resolve_key model, p))

/-- The specification's reference resolution algorithm (spec §4.1), stated
the way the spec words it: (1) replace by the alias table's canonical id
when present; (2) return the exact-match entry when the name is a price
table key; (3) otherwise scan entries in the table's declared iteration
order and return the first entry related to the name by prefix; (4)
otherwise unresolved. -/
def spec_resolve (model : String) : Option (String × (ℚ × ℚ)) :=
  let canonical := ((ALIASES.lookup model).getD model)
  match PRICING.lookup canonical with
  | some p => some (canonical, p)
  | none => PRICING.find? (prefixHit canonical)

/-- Python truthiness-based `or` on optional strings, as used in
`CostTracker.track` (`user_id or self.default_user_id`): `None` and the
empty string are falsy, so either falls through to the right operand. -/
def pyOr (a b : Option String) : Option String :=
  match a with
  | some s => if s = "" then b else some s
  | none => b

/-- Structure `UsageEvent` from `src/costgpt/tracker.py`: one measured LLM call and
its computed cost. The uuid is abstracted as a natural number and the UTC
timestamp as an integer; metadata as an association list. -/
structure UsageEvent where
  id : ℕ
  timestamp : ℤ
  model : String
  input_tokens : ℤ
  output_tokens : ℤ
  input_cost : ℚ
  output_cost : ℚ
  total_cost : ℚ
  duration_ms : Option ℤ
  user_id : Option String
  feature : Option String
  metadata : List (String × String)
  deriving Repr, DecidableEq

/-- The configuration of a `CostTracker` that is relevant to event
construction: its default attribution fields. -/
structure CostTracker where
  default_user_id : Option String
  default_feature : Option String
  deriving Repr, DecidableEq

/-- Method `CostTracker.track` from `src/costgpt/tracker.py`. The effectful
inputs `uuid4()` and `datetime.now(utc)` are passed in as `fresh_id` and
`now`; everything else follows the source: costs from `get_cost`,
attribution fields via Python `or` against the tracker defaults,
`metadata or {}` for the metadata dict. -/
def CostTracker.track (t : CostTracker) (fresh_id : ℕ) (now : ℤ)
    (model : String) (input_tokens output_tokens : ℤ)
    (user_id feature : Option String) (duration_ms : Option ℤ)
    (metadata : Option (List (String × String))) : UsageEvent :=
  let c := get_cost model input_tokens output_tokens
  { id := fresh_id
    timestamp := now
    model := model
    input_tokens := input_tokens
    output_tokens := output_tokens
    input_cost := c.1
    output_cost := c.2.1
    total_cost := c.2.2
    duration_ms := duration_ms
    user_id := pyOr user_id t.default_user_id
    feature := pyOr feature t.default_feature
    metadata := metadata.getD [] }

/-- Transport failures raised by the HTTP layer inside the dispatcher:
`httpx` signals timeouts and connection errors as exceptions from `post`,
and `raise_for_status` turns a non-2xx response into a status exception.
All of these are subclasses of `httpx.HTTPError`. -/
inductive HttpFailure where
  | timeout
  | connectError
  | statusError (code : ℕ)
  deriving Repr, DecidableEq

/-- Outcome of the `POST` call itself: either a raised transport failure
or a response with a status code. -/
def PostOutcome : Type := Except HttpFailure ℕ

/-- Python `response.raise_for_status()`: raises on a non-success (non-2xx)
status code, otherwise returns normally. -/
def raise_for_status (code : ℕ) : Except HttpFailure Unit :=
  if 200 ≤ code ∧ code < 300 then Except.ok () else Except.error (.statusError code)

/-- Method `APIClient.send_event` from `src/costgpt/client.py`, with the network
abstracted as the outcome of the `post` call: the `try` block posts and
checks the status, and `except httpx.HTTPError: pass` swallows every
transport failure. The result is what the caller of `send_event`
observes: `ok` means it returned normally, `error` would mean it raised. -/
def send_event (post_outcome : PostOutcome) : Except HttpFailure Unit :=
  match (Except.bind post_outcome raise_for_status : Except HttpFailure Unit) with
  | Except.ok _ => Except.ok ()
  | Except.error _ => Except.ok ()

/-- Method `APIClient.send_events_batch` from `src/costgpt/client.py`: a single
request carrying all events, with the identical `try/except` shape. -/
def send_events_batch (post_outcome : PostOutcome) : Except HttpFailure Unit :=
  match (Except.bind post_outcome raise_for_status : Except HttpFailure Unit) with
  | Except.ok _ => Except.ok ()
  | Except.error _ => Except.ok ()

/-- Method `CostTracker.track` when a client is configured: the event is
constructed, then handed to `send_event`, and the event is returned. The
pair records both the returned event and what the dispatch step did. -/
def track_and_dispatch (t : CostTracker) (fresh_id : ℕ) (now : ℤ)
    (model : String) (input_tokens output_tokens : ℤ)
    (user_id feature : Option String) (duration_ms : Option ℤ)
    (metadata : Option (List (String × String)))
    (post_outcome : PostOutcome) : UsageEvent × Except HttpFailure Unit :=
  let event := t.track fresh_id now model input_tokens output_tokens
    user_id feature duration_ms metadata
  (event, send_event post_outcome)

end Costgpt

namespace Costgpt.Instruments

/-- The `import anthropic` / `import openai` at the top of `instrument` and
`uninstrument`: either the provider library is importable or an
`ImportError` is raised. -/
inductive InstrumentError where
  | importError
  deriving Repr, DecidableEq

/-- The provider-owned part of the world: whether the provider's library
is importable, and the callable currently sitting at the target slot
(`Messages.create` resp. `Completions.create`), of abstract type `C`. -/
structure ProviderState (C : Type) where
  libraryPresent : Bool
  slot : C
  deriving Repr, DecidableEq

/-- The module-global hook state of one provider module
(`_original_create`, `_tracker` in `src/costgpt/instruments/*.py`).
`NOT_INSTALLED` is `original_create = none`; `INSTALLED` is
`original_create = some orig`. -/
structure HookGlobals (C T : Type) where
  original_create : Option C
  tracker : Option T
  deriving Repr, DecidableEq

/-- Function `instrument(tracker)` from `src/costgpt/instruments/anthropic.py` and
`openai.py`, generically over the callable type and the wrapper
constructor `wrap`: first the provider library is imported (raising an
ImportError when absent, before anything else), then the
already-instrumented check returns early, then the current slot callable
is captured into the globals and replaced by the wrapper. Returns the
raised error (if any) together with the post-call state. -/
def instrument {C T : Type} (wrap : C → T → C) (tracker : T)
    (env : ProviderState C) (g : HookGlobals C T) :
    Option InstrumentError × ProviderState C × HookGlobals C T :=
  if env.libraryPresent = false then
    (some .importError, env, g)
  else if g.original_create.isSome then
    (none, env, g)
  else
    (none, { env with slot := wrap env.slot tracker },
      { original_create := some env.slot, tracker := some tracker })

/-- Function `uninstrument()` from the same modules: a no-op when not installed;
otherwise the library is re-imported, the captured original is restored
to the slot and the globals are cleared; an ImportError during the
restore is swallowed, leaving everything untouched. -/
def uninstrument {C T : Type} (env : ProviderState C) (g : HookGlobals C T) :
    ProviderState C × HookGlobals C T :=
  match g.original_create with
  | none => (env, g)
  | some orig =>
    if env.libraryPresent then
      ({ env with slot := orig }, { original_create := none, tracker := none })
    else
      (env, g)

/-- What a wrapper passes to `tracker.track(...)` on one invocation. -/
structure TrackCall where
  model : String
  input_tokens : ℤ
  output_tokens : ℤ
  duration_ms : ℤ
  deriving Repr, DecidableEq

/-- The `usage` object of an Anthropic `Message` result. -/
structure AnthropicUsage where
  input_tokens : ℤ
  output_tokens : ℤ
  deriving Repr, DecidableEq

/-- An Anthropic `Messages.create` result: every message carries a model
name and a usage block. -/
structure AnthropicResult where
  model : String
  usage : AnthropicUsage
  deriving Repr, DecidableEq

/-- The `usage` object of an OpenAI chat-completion result. -/
structure OpenAIUsage where
  prompt_tokens : ℤ
  completion_tokens : ℤ
  deriving Repr, DecidableEq

/-- An OpenAI `Completions.create` result: `usage` may be absent
(`None`), and `if result.usage:` in the wrapper tests exactly that. -/
structure OpenAIResult where
  model : String
  usage : Option OpenAIUsage
  deriving Repr, DecidableEq

/-- The wrapper `tracked_create` from `src/costgpt/instruments/anthropic.py`: runs
the original callable on the caller's arguments, unconditionally calls
`tracker.track` with the result's model and usage token counts and the
measured duration, and returns the original result. The wall-clock
duration measurement is abstracted as the parameter `duration_ms`; the
second component records the `tracker.track` call that was made. -/
def anthropic_tracked_create {A : Type} (original : A → AnthropicResult)
    (duration_ms : ℤ) (args : A) : AnthropicResult × Option TrackCall :=
  let result := original args
  (result,
    some { model := result.model
           input_tokens := result.usage.input_tokens
           output_tokens := result.usage.output_tokens
           duration_ms := duration_ms })

/-- The wrapper `tracked_create` from `src/costgpt/instruments/openai.py`: as the
Anthropic wrapper, except that `tracker.track` is called only when
`result.usage` is truthy (present). -/
def openai_tracked_create {A : Type} (original : A → OpenAIResult)
    (duration_ms : ℤ) (args : A) : OpenAIResult × Option TrackCall :=
  let result := original args
  match result.usage with
  | some u =>
    (result,
      some { model := result.model
             input_tokens := u.prompt_tokens
             output_tokens := u.completion_tokens
             duration_ms := duration_ms })
  | none => (result, none)

end Costgpt.Instruments

namespace Costgpt

set_option maxRecDepth 100000

/-- A successful association-list lookup identifies a binding that is a
member of the list. -/
theorem lookup_mem {β : Type} :
    ∀ (l : List (String × β)) (k : String) (v : β),
      l.lookup k = some v → (k, v) ∈ l := by
  intro l
  induction l with
  | nil => intro k v h; simp [List.lookup] at h
  | cons x xs ih =>
    intro k v h
    obtain ⟨k', v'⟩ := x
    simp only [List.lookup] at h
    cases hk : k == k' with
    | true =>
      rw [hk] at h
      simp only [Option.some.injEq] at h
      exact List.mem_cons.mpr (Or.inl (by rw [eq_of_beq hk, h]))
    | false =>
      rw [hk] at h
      exact List.mem_cons.mpr (Or.inr (ih k v h))

/-- In an association list whose keys are pairwise distinct, the first
entry satisfying a predicate is also what looking its key up returns. -/
theorem find?_lookup {β : Type} :
    ∀ (l : List (String × β)) (p : String × β → Bool) (kv : String × β),
      (l.map Prod.fst).Nodup → l.find? p = some kv →
      l.lookup kv.1 = some kv.2 := by
  intro l
  induction l with
  | nil => intro p kv _ h; simp [List.find?] at h
  | cons x xs ih =>
    intro p kv hnd h
    rw [List.find?] at h
    have hnd' : x.1 ∉ xs.map Prod.fst ∧ (xs.map Prod.fst).Nodup := by
      simpa [List.nodup_cons] using hnd
    cases hp : p x with
    | true =>
      rw [hp] at h
      simp only [Option.some.injEq] at h
      obtain ⟨k', v'⟩ := x
      subst h
      simp [List.lookup]
    | false =>
      rw [hp] at h
      have hmem : kv ∈ xs := List.mem_of_find?_eq_some h
      have hne : kv.1 ≠ x.1 := by
        intro he
        exact hnd'.1 (he ▸ List.mem_map_of_mem Prod.fst hmem)
      obtain ⟨k', v'⟩ := x
      simp only [List.lookup]
      rw [show (kv.1 == k') = false from beq_eq_false_iff_ne.mpr hne]
      exact ih p kv hnd'.2 h

/-- The price table's keys are pairwise distinct (it embeds a Python
dict, which cannot hold a key twice). -/
theorem pricing_keys_nodup : (PRICING.map Prod.fst).Nodup := by decide

/-- Every price pair in the catalog is componentwise non-negative. -/
theorem pricing_nonneg : ∀ kv ∈ PRICING, 0 ≤ kv.2.1 ∧ 0 ≤ kv.2.2 := by
  intro kv hkv
  fin_cases hkv <;> exact ⟨by norm_num, by norm_num⟩

/-- A resolved entry is a member of the price table. -/
theorem code_resolve_mem (m k : String) (p : ℚ × ℚ)
    (h : code_resolve m = some (k, p)) : (k, p) ∈ PRICING := by
  unfold code_resolve at h
  cases hl : PRICING.lookup (resolve_key m) with
  | none => rw [hl] at h; simp at h
  | some q =>
    rw [hl] at h
    simp only [Option.map_some', Option.some.injEq, Prod.mk.injEq] at h
    obtain ⟨hk, hp⟩ := h
    subst hk; subst hp
    exact lookup_mem _ _ _ hl

/-- The function `get_cost` factors through the resolution step: an
unresolved model yields zero costs, a resolved one the linear
per-million formula. -/
theorem get_cost_eq_resolve (m : String) (i o : ℤ) :
    get_cost m i o =
      match code_resolve m with
      | none => (0, 0, 0)
      | some (_, p) =>
          (((i : ℚ) / 1000000) * p.1, ((o : ℚ) / 1000000) * p.2,
            ((i : ℚ) / 1000000) * p.1 + ((o : ℚ) / 1000000) * p.2) := by
  unfold get_cost code_resolve
  cases hl : PRICING.lookup (resolve_key m) with
  | none => simp
  | some q => obtain ⟨ip, op⟩ := q; simp

/-- C1: for every model name, `get_cost` resolves it by alias
substitution, then exact price-table match, then the first entry in the
table's declared iteration order related to the (substituted) name by
prefix; `code_resolve`, extracted from `get_cost`, coincides with the
spec's reference algorithm `spec_resolve`, and `get_cost` prices every
model by that resolution. -/
theorem C1_resolution_eq_reference (model : String) (i o : ℤ) :
    code_resolve model = spec_resolve model ∧
    get_cost model i o =
      (match spec_resolve model with
      | none => (0, 0, 0)
      | some (_, p) =>
          (((i : ℚ) / 1000000) * p.1, ((o : ℚ) / 1000000) * p.2,
            ((i : ℚ) / 1000000) * p.1 + ((o : ℚ) / 1000000) * p.2)) := by
  have hmain : code_resolve model = spec_resolve model := by
    unfold code_resolve spec_resolve resolve_key
    rw [show ((ALIASES.lookup model).getD model) = alias_key model from rfl]
    cases h1 : PRICING.lookup (alias_key model) with
    | some p => simp [h1]
    | none =>
      simp only [h1, Option.isSome_none, Bool.false_eq_true, if_false]
      cases h2 : PRICING.find? (prefixHit (alias_key model)) with
      | none => simp [h1, h2]
      | some kv =>
        have hlk := find?_lookup PRICING _ kv pricing_keys_nodup h2
        simp [h2, hlk]
  refine ⟨hmain, ?_⟩
  rw [get_cost_eq_resolve, hmain]

/-- C2: for every model resolving to a price entry `(pi, po)`, `get_cost`
returns `input_cost = input_tokens / 1_000_000 * pi`, `output_cost =
output_tokens / 1_000_000 * po`, and `total_cost` exactly equal to their
sum with no independent rounding; `track("gpt-4o", 1000, 500)` with
catalog prices `(2.50, 10.00)` yields costs
`(0.0025, 0.005, 0.0075)`. -/
theorem C2_cost_formula (model key : String) (pi po : ℚ) (i o : ℤ)
    (t : CostTracker) (fid : ℕ) (now : ℤ)
    (h : code_resolve model = some (key, (pi, po))) :
    get_cost model i o =
      (((i : ℚ) / 1000000) * pi, ((o : ℚ) / 1000000) * po,
        ((i : ℚ) / 1000000) * pi + ((o : ℚ) / 1000000) * po) ∧
    (get_cost model i o).2.2 = (get_cost model i o).1 + (get_cost model i o).2.1 ∧
    code_resolve "gpt-4o" = some ("gpt-4o", (2.50, 10.00)) ∧
    (t.track fid now "gpt-4o" 1000 500 none none none none).input_cost = 0.0025 ∧
    (t.track fid now "gpt-4o" 1000 500 none none none none).output_cost = 0.005 ∧
    (t.track fid now "gpt-4o" 1000 500 none none none none).total_cost = 0.0075 := by
  have hform : get_cost model i o =
      (((i : ℚ) / 1000000) * pi, ((o : ℚ) / 1000000) * po,
        ((i : ℚ) / 1000000) * pi + ((o : ℚ) / 1000000) * po) := by
    rw [get_cost_eq_resolve, h]
  have hgpt : get_cost "gpt-4o" 1000 500 = (0.0025, 0.005, 0.0075) := by
    have hres : code_resolve "gpt-4o" = some ("gpt-4o", (2.50, 10.00)) := rfl
    rw [get_cost_eq_resolve, hres]
    norm_num
  refine ⟨hform, by rw [hform], rfl, ?_, ?_, ?_⟩ <;>
    simp only [CostTracker.track, hgpt]

/-- C2 witness: the theorem applied to the model `"gpt-4o"` itself, whose
resolution hypothesis holds definitionally. -/
theorem C2_cost_formula_witness :
    get_cost "gpt-4o" 1000 500 = (0.0025, 0.005, 0.0075) ∧
    (CostTracker.track ⟨none, none⟩ 0 0 "gpt-4o" 1000 500
      none none none none).total_cost = 0.0075 := by
  have h := C2_cost_formula "gpt-4o" "gpt-4o" 2.50 10.00 1000 500 ⟨none, none⟩ 0 0 rfl
  exact ⟨h.1.trans (by norm_num), h.2.2.2.2.2⟩

/-- C3: for every model name that resolves to no entry, `get_cost`
yields `(0.0, 0.0, 0.0)` (never raising: the embedding is total), and
`track` still returns a fully formed `UsageEvent`; concretely
`track("unknown-model-xyz", 100, 100)` carries zero costs. -/
theorem C3_unresolved_zero_cost (m : String) (i o : ℤ)
    (t : CostTracker) (fid : ℕ) (now : ℤ)
    (h : code_resolve m = none) :
    get_cost m i o = (0, 0, 0) ∧
    code_resolve "unknown-model-xyz" = none ∧
    get_cost "unknown-model-xyz" 100 100 = (0, 0, 0) ∧
    t.track fid now "unknown-model-xyz" 100 100 none none none none =
      { id := fid, timestamp := now, model := "unknown-model-xyz",
        input_tokens := 100, output_tokens := 100,
        input_cost := 0, output_cost := 0, total_cost := 0,
        duration_ms := none, user_id := t.default_user_id,
        feature := t.default_feature, metadata := [] } := by
  have hu : code_resolve "unknown-model-xyz" = none := rfl
  have hg : get_cost "unknown-model-xyz" 100 100 = (0, 0, 0) := by
    rw [get_cost_eq_resolve, hu]
  refine ⟨by rw [get_cost_eq_resolve, h], hu, hg, ?_⟩
  simp [CostTracker.track, hg, pyOr]

/-- C3 witness: the theorem applied to the unresolvable name
`"unknown-model-xyz"` itself. -/
theorem C3_unresolved_zero_cost_witness :
    get_cost "unknown-model-xyz" 100 100 = (0, 0, 0) :=
  (C3_unresolved_zero_cost "unknown-model-xyz" 100 100 ⟨none, none⟩ 0 0 rfl).1

/-- C10: a model name prefix-matching several price-table entries is
priced by the entry declared earliest, not by the longest matching key:
`"o1-mini-2025"` matches both the `"o1-mini"` entry `(3.00, 12.00)` and
the earlier-declared `"o1"` entry `(15.00, 60.00)`, and `get_cost`
prices it with the `"o1"` entry. -/
theorem C10_first_prefix_match_wins :
    prefixHit "o1-mini-2025" ("o1", (15.00, 60.00)) = true ∧
    prefixHit "o1-mini-2025" ("o1-mini", (3.00, 12.00)) = true ∧
    resolve_key "o1-mini-2025" = "o1" ∧
    code_resolve "o1-mini-2025" = some ("o1", (15.00, 60.00)) ∧
    get_cost "o1-mini-2025" 1000000 1000000 = (15, 60, 75) := by
  refine ⟨by decide, by decide, by decide, rfl, ?_⟩
  rw [get_cost_eq_resolve, show code_resolve "o1-mini-2025" =
    some ("o1", (15.00, 60.00)) from rfl]
  norm_num

/-- C8: every alias prices exactly as its canonical id does, for equal
token counts; in particular `"claude-3.5-sonnet"` resolves to the very
price entry of `"claude-3-5-sonnet-20241022"`. -/
theorem C8_alias_same_cost (a c : String) (i o : ℤ)
    (h : (a, c) ∈ ALIASES) :
    get_cost a i o = get_cost c i o ∧
    code_resolve "claude-3.5-sonnet" =
      code_resolve "claude-3-5-sonnet-20241022" := by
  have hk : resolve_key a = resolve_key c := by
    fin_cases h <;> decide
  constructor
  · unfold get_cost
    rw [hk]
  · rfl

/-- C8 witness: the theorem applied to the alias
`"claude-3.5-sonnet"`. -/
theorem C8_alias_same_cost_witness :
    get_cost "claude-3.5-sonnet" 7 11 =
      get_cost "claude-3-5-sonnet-20241022" 7 11 :=
  (C8_alias_same_cost "claude-3.5-sonnet" "claude-3-5-sonnet-20241022"
    7 11 (by decide)).1

/-- C9: all three costs returned by `get_cost` are non-negative for
non-negative token counts, and each is monotonically non-decreasing in
the token counts with the model fixed. -/
theorem C9_nonneg_monotone (model : String) (i o i' o' : ℤ)
    (hi : 0 ≤ i) (ho : 0 ≤ o) (hii : i ≤ i') (hoo : o ≤ o') :
    (0 ≤ (get_cost model i o).1 ∧ 0 ≤ (get_cost model i o).2.1 ∧
      0 ≤ (get_cost model i o).2.2) ∧
    ((get_cost model i o).1 ≤ (get_cost model i' o').1 ∧
      (get_cost model i o).2.1 ≤ (get_cost model i' o').2.1 ∧
      (get_cost model i o).2.2 ≤ (get_cost model i' o').2.2) := by
  rw [get_cost_eq_resolve model i o, get_cost_eq_resolve model i' o']
  cases h : code_resolve model with
  | none => norm_num
  | some kp =>
    obtain ⟨k, p⟩ := kp
    have hp := pricing_nonneg (k, p) (code_resolve_mem model k p h)
    obtain ⟨hp1, hp2⟩ := hp
    have hiq : (0 : ℚ) ≤ (i : ℚ) := by exact_mod_cast hi
    have hoq : (0 : ℚ) ≤ (o : ℚ) := by exact_mod_cast ho
    have hiq' : (i : ℚ) ≤ (i' : ℚ) := by exact_mod_cast hii
    have hoq' : (o : ℚ) ≤ (o' : ℚ) := by exact_mod_cast hoo
    have h1 : (0 : ℚ) ≤ ((i : ℚ) / 1000000) * p.1 :=
      mul_nonneg (by positivity) hp1
    have h2 : (0 : ℚ) ≤ ((o : ℚ) / 1000000) * p.2 :=
      mul_nonneg (by positivity) hp2
    have h3 : ((i : ℚ) / 1000000) * p.1 ≤ ((i' : ℚ) / 1000000) * p.1 := by
      gcongr
    have h4 : ((o : ℚ) / 1000000) * p.2 ≤ ((o' : ℚ) / 1000000) * p.2 := by
      gcongr
    exact ⟨⟨h1, h2, add_nonneg h1 h2⟩, ⟨h3, h4, add_le_add h3 h4⟩⟩

/-- C9 witness: the theorem applied to `"gpt-4o"` with token counts
`(1, 1)` growing to `(2, 3)`. -/
theorem C9_nonneg_monotone_witness :
    ((0 : ℤ) ≤ 1 ∧ (1 : ℤ) ≤ 2 ∧ (1 : ℤ) ≤ 3) ∧
    ((0 ≤ (get_cost "gpt-4o" 1 1).1 ∧ 0 ≤ (get_cost "gpt-4o" 1 1).2.1 ∧
        0 ≤ (get_cost "gpt-4o" 1 1).2.2) ∧
      ((get_cost "gpt-4o" 1 1).1 ≤ (get_cost "gpt-4o" 2 3).1 ∧
        (get_cost "gpt-4o" 1 1).2.1 ≤ (get_cost "gpt-4o" 2 3).2.1 ∧
        (get_cost "gpt-4o" 1 1).2.2 ≤ (get_cost "gpt-4o" 2 3).2.2)) :=
  ⟨⟨by decide, by decide, by decide⟩,
    C9_nonneg_monotone "gpt-4o" 1 1 2 3 (by decide) (by decide)
      (by decide) (by decide)⟩

/-- C7 counterexample: an explicitly given `user_id` that is the empty
string is not kept — `user_id or self.default_user_id` falls through to
the tracker default because the empty string is falsy in Python, so the
event's `user_id` differs from the explicit argument. -/
theorem C7_counterexample :
    (CostTracker.track ⟨some "alice", none⟩ 0 0 "gpt-4o" 1 1
        (some "") none none none).user_id = some "alice" ∧
    ¬ (CostTracker.track ⟨some "alice", none⟩ 0 0 "gpt-4o" 1 1
        (some "") none none none).user_id = some "" := by
  constructor
  · simp [CostTracker.track, pyOr]
  · simp [CostTracker.track, pyOr]

/-- C7 amended: the `user_id` (respectively `feature`) of the returned
event equals the explicit argument whenever one is given and non-empty;
an omitted or empty-string argument falls back to the tracker's
configured default (itself possibly absent), per Python `or`
truthiness. -/
theorem C7_user_feature_defaults (t : CostTracker) (fid : ℕ) (now : ℤ)
    (model : String) (i o : ℤ) (uid feat : Option String)
    (dur : Option ℤ) (md : Option (List (String × String))) :
    (∀ s, uid = some s → s ≠ "" →
      (t.track fid now model i o uid feat dur md).user_id = some s) ∧
    (uid = none ∨ uid = some "" →
      (t.track fid now model i o uid feat dur md).user_id =
        t.default_user_id) ∧
    (∀ s, feat = some s → s ≠ "" →
      (t.track fid now model i o uid feat dur md).feature = some s) ∧
    (feat = none ∨ feat = some "" →
      (t.track fid now model i o uid feat dur md).feature =
        t.default_feature) := by
  refine ⟨?_, ?_, ?_, ?_⟩
  · intro s hs hne
    simp [CostTracker.track, pyOr, hs, hne]
  · rintro (h | h) <;> simp [CostTracker.track, pyOr, h]
  · intro s hs hne
    simp [CostTracker.track, pyOr, hs, hne]
  · rintro (h | h) <;> simp [CostTracker.track, pyOr, h]

/-- C7 witness: an explicit non-empty `user_id` is kept, and an omitted
`feature` falls back to the tracker default. -/
theorem C7_user_feature_defaults_witness :
    (CostTracker.track ⟨some "alice", some "search"⟩ 0 0 "gpt-4o" 1 1
      (some "bob") none none none).user_id = some "bob" ∧
    (CostTracker.track ⟨some "alice", some "search"⟩ 0 0 "gpt-4o" 1 1
      (some "bob") none none none).feature = some "search" :=
  ⟨(C7_user_feature_defaults ⟨some "alice", some "search"⟩ 0 0 "gpt-4o"
      1 1 (some "bob") none none none).1 "bob" rfl (by decide),
    (C7_user_feature_defaults ⟨some "alice", some "search"⟩ 0 0 "gpt-4o"
      1 1 (some "bob") none none none).2.2.2 (Or.inl rfl)⟩

/-- C4: the dispatcher never raises on any transport failure — timeout,
connection error, or non-2xx status — returning normally with the
failure discarded; and when `track` dispatches, the event it returns is
the same event regardless of the dispatch outcome. -/
theorem C4_dispatch_never_raises (po pb : PostOutcome)
    (t : CostTracker) (fid : ℕ) (now : ℤ) (model : String) (i o : ℤ)
    (uid feat : Option String) (dur : Option ℤ)
    (md : Option (List (String × String))) :
    send_event po = Except.ok () ∧
    send_events_batch pb = Except.ok () ∧
    (track_and_dispatch t fid now model i o uid feat dur md po).1 =
      t.track fid now model i o uid feat dur md ∧
    (track_and_dispatch t fid now model i o uid feat dur md po).2 =
      Except.ok () := by
  have hse : ∀ (x : PostOutcome), send_event x = Except.ok () := by
    intro x
    cases x with
    | error e => rfl
    | ok code =>
      unfold send_event
      cases h : raise_for_status code with
      | ok u => simp [Except.bind, h]
      | error e => simp [Except.bind, h]
  have hsb : send_events_batch pb = Except.ok () := by
    cases pb with
    | error e => rfl
    | ok code =>
      unfold send_events_batch
      cases h : raise_for_status code with
      | ok u => simp [Except.bind, h]
      | error e => simp [Except.bind, h]
  exact ⟨hse po, hsb, rfl, hse po⟩

end Costgpt

namespace Costgpt.Instruments

/-- C5: each provider wrapper invokes the original callable on the
caller's arguments unchanged, returns that original result unmodified
regardless of the tracking outcome, and calls `tracker.track` — with the
extracted model, token counts and the measured duration — exactly when
the result has usage (always for the Anthropic wrapper; for the OpenAI
wrapper only when `result.usage` is present). -/
theorem C5_wrapper_transparent {A : Type}
    (origA : A → AnthropicResult) (origO : A → OpenAIResult)
    (d : ℤ) (args : A) :
    (anthropic_tracked_create origA d args).1 = origA args ∧
    (anthropic_tracked_create origA d args).2 =
      some { model := (origA args).model,
             input_tokens := (origA args).usage.input_tokens,
             output_tokens := (origA args).usage.output_tokens,
             duration_ms := d } ∧
    (openai_tracked_create origO d args).1 = origO args ∧
    ((openai_tracked_create origO d args).2.isSome ↔
      (origO args).usage.isSome) ∧
    (∀ u, (origO args).usage = some u →
      (openai_tracked_create origO d args).2 =
        some { model := (origO args).model,
               input_tokens := u.prompt_tokens,
               output_tokens := u.completion_tokens,
               duration_ms := d }) ∧
    ((origO args).usage = none →
      (openai_tracked_create origO d args).2 = none) := by
  refine ⟨rfl, rfl, ?_, ?_, ?_, ?_⟩ <;>
    unfold openai_tracked_create <;>
    cases h : (origO args).usage <;>
    simp [h]

/-- C5 witness: the theorem applied to constant canned provider
results. -/
theorem C5_wrapper_transparent_witness :
    (openai_tracked_create
        (fun _ : ℕ => { model := "gpt-4o",
                        usage := some { prompt_tokens := 5,
                                        completion_tokens := 6 } })
        12 0).2 =
      some { model := "gpt-4o", input_tokens := 5, output_tokens := 6,
             duration_ms := 12 } ∧
    (anthropic_tracked_create
        (fun _ : ℕ => { model := "claude-3-5-sonnet-20241022",
                        usage := { input_tokens := 3,
                                   output_tokens := 4 } })
        12 0).1 =
      { model := "claude-3-5-sonnet-20241022",
        usage := { input_tokens := 3, output_tokens := 4 } } :=
  ⟨(C5_wrapper_transparent
      (fun _ : ℕ => { model := "claude-3-5-sonnet-20241022",
                      usage := { input_tokens := 3, output_tokens := 4 } })
      (fun _ : ℕ => { model := "gpt-4o",
                      usage := some { prompt_tokens := 5,
                                      completion_tokens := 6 } })
      12 0).2.2.2.2.1 { prompt_tokens := 5, completion_tokens := 6 } rfl,
    (C5_wrapper_transparent
      (fun _ : ℕ => { model := "claude-3-5-sonnet-20241022",
                      usage := { input_tokens := 3, output_tokens := 4 } })
      (fun _ : ℕ => { model := "gpt-4o",
                      usage := some { prompt_tokens := 5,
                                      completion_tokens := 6 } })
      12 0).1⟩

/-- C6: the per-provider hook state machine. From `NOT_INSTALLED`
(`original_create = none`) with the library present, `instrument`
succeeds, captures the slot's callable and wraps the slot; while
`INSTALLED` it is a no-op (the slot stays wrapped exactly once);
`uninstrument` while `INSTALLED` restores the captured original and
clears the globals; `uninstrument` while `NOT_INSTALLED` is a no-op;
and `instrument` with the library absent raises an import error leaving
every piece of state unchanged. -/
theorem C6_hook_state_machine {C T : Type} (wrap : C → T → C) (tr : T)
    (env : ProviderState C) (g : HookGlobals C T) :
    (g.original_create = none → env.libraryPresent = true →
      instrument wrap tr env g =
        (none, { libraryPresent := true, slot := wrap env.slot tr },
          { original_create := some env.slot, tracker := some tr })) ∧
    (g.original_create.isSome → env.libraryPresent = true →
      instrument wrap tr env g = (none, env, g)) ∧
    (∀ orig, g.original_create = some orig → env.libraryPresent = true →
      uninstrument env g =
        ({ libraryPresent := true, slot := orig },
          { original_create := none, tracker := none })) ∧
    (g.original_create = none → uninstrument env g = (env, g)) ∧
    (env.libraryPresent = false →
      instrument wrap tr env g = (some .importError, env, g)) := by
  refine ⟨?_, ?_, ?_, ?_, ?_⟩
  · intro hg hlib
    obtain ⟨lp, slot⟩ := env
    simp only at hlib
    subst hlib
    simp [instrument, hg]
  · intro hg hlib
    obtain ⟨lp, slot⟩ := env
    simp only at hlib
    subst hlib
    simp [instrument, hg]
  · intro orig hg hlib
    obtain ⟨lp, slot⟩ := env
    simp only at hlib
    subst hlib
    simp [uninstrument, hg]
  · intro hg
    simp [uninstrument, hg]
  · intro hlib
    simp [instrument, hlib]

/-- C6 witness: a fresh install on a present library wraps the slot, and
an uninstall from the uninstalled state is a no-op. -/
theorem C6_hook_state_machine_witness :
    instrument (fun c t => c + t) 5
        (⟨true, 10⟩ : ProviderState ℕ) (⟨none, none⟩ : HookGlobals ℕ ℕ) =
      (none, { libraryPresent := true, slot := 15 },
        { original_create := some 10, tracker := some 5 }) ∧
    uninstrument (⟨true, 10⟩ : ProviderState ℕ)
        (⟨none, none⟩ : HookGlobals ℕ ℕ) =
      (⟨true, 10⟩, ⟨none, none⟩) :=
  ⟨(C6_hook_state_machine (fun c t => c + t) 5 ⟨true, 10⟩
      ⟨none, none⟩).1 rfl rfl,
    (C6_hook_state_machine (fun c t => c + t) 5 ⟨true, 10⟩
      ⟨none, none⟩).2.2.2.1 rfl⟩

end Costgpt.Instruments
